import Mathlib

/-!
Shallow embedding of the BLS verification gadget (`crates/bls-gadgets/src/bls.rs`)
and the epoch transition gadget (`crates/epoch-snark/src/gadgets/single_update.rs`)
of the `celo-bls-snark-rs` repository, together with theorems settling the
specification claims about them.

Modelling choices:
* Wire values are modelled by their underlying values: the constraint field `Fr`
  and both source groups `G1`, `G2` are carried by `Int` (an additive group);
  the target group element produced by a multi-pairing is kept symbolic, as the
  formal list of its `(G1, G2)` operand pairs, with `[]` the identity `1_GT`.
* The shared constraint system is modelled as the ordered list of constraint
  `Event`s appended by the gadget operations.  A gadget computation is a value
  of the writer / error monad `M`: it either returns a value together with the
  events it appended, returns a recoverable `SynthesisError` (Rust `Err(_)`),
  or aborts the host process (Rust `assert_eq!` / panic).  The `panicked`
  outcome is distinct from `err` because the error-handling claims are exactly
  about that distinction.
* Operations provided by external collaborator crates (`r1cs_std` selection,
  preparation, pairing product, equality assertion, constant allocation) and by
  crate code of this repository that is not among the given source files
  (the bitmap-occupancy trait, `constrain_bool`, `FpUtils::is_eq_zero`,
  `EpochData` and `EpochData::constrain`) are modelled from the specification;
  each such definition says so in its doc comment.
-/

/-- Constraint-field elements (values of `FpVar<F>` wires). -/
abbrev Fr := Int

/-- Values of `G1Var` wires (messages and signatures). -/
abbrev G1 := Int

/-- Values of `G2Var` wires (public keys). -/
abbrev G2 := Int

/-- Values of prepared G1 points; preparation does not change the value. -/
abbrev PreparedG1 := G1

/-- Values of prepared G2 points. -/
abbrev PreparedG2 := G2

/-- Target-group values, kept symbolic as the list of pairing operand pairs. -/
abbrev GTVar := List (G1 × G2)

/-- The multiplicative identity `1_GT` of the target group: the empty pairing product. -/
def GTVar.one : GTVar := []

/-- The G2 group identity (`P::G2Var::zero()`). -/
def G2.zero : G2 := 0

/-- Value of `E::G2Projective::prime_subgroup_generator()`, the fixed G2 generator. -/
def g2_generator : G2 := 1

/-- One constraint-system effect: a wire allocation or an enforced constraint
appended to the shared constraint system by a gadget operation. -/
inductive Event where
  /-- Bitmap-occupancy constraint: at most `max` occurrences of `counted` in `bitmap`. -/
  | enforceMaxOccurrences (bitmap : List Bool) (max : Fr) (counted : Bool)
  /-- Conditional selection `bit.select(ifTrue, ifFalse)` on G2 points. -/
  | select (bit : Bool) (ifTrue ifFalse : G2)
  /-- Pairing preparation of a G1 point (`P::prepare_g1`). -/
  | prepG1 (p : G1)
  /-- Pairing preparation of a G2 point (`P::prepare_g2`). -/
  | prepG2 (p : G2)
  /-- Allocation of a G2 constant (`new_constant`). -/
  | allocG2Constant (p : G2)
  /-- Negation of a G2 point (`negate`). -/
  | negateG2 (p : G2)
  /-- Multi-pairing product over parallel operand lists (`P::product_of_pairings`). -/
  | pairingProduct (g1s : List PreparedG1) (g2s : List PreparedG2)
  /-- Enforced equality of two target-group elements (`enforce_equal`). -/
  | enforceEqualGT (lhs rhs : GTVar)
  /-- Zero test of a field wire (`FpUtils::is_eq_zero`). -/
  | isEqZero (x : Fr)
  /-- Boolean conjunction wire (`Boolean::and`). -/
  | booleanAnd (a b : Bool)
  /-- Conditionally enforced field equality (`conditional_enforce_equal`):
  the equality `x = y` is only required to hold when `cond` is `true`. -/
  | condEnforceEqualFr (x y : Fr) (cond : Bool)
  /-- Witness allocation of one boolean wire (`Boolean::new_witness`). -/
  | witnessBool (b : Bool)
  /-- The external epoch-data constrainer run (`EpochData::constrain`). -/
  | epochDataConstrain (previous_epoch_index : Fr) (generate_constraints_for_hash : Bool)
deriving DecidableEq, Repr

/-- The recoverable error type returned by gadget operations (`SynthesisError`). -/
inductive SynthesisError where
  /-- A required witness assignment was missing (`AssignmentMissing`). -/
  | assignmentMissing
  /-- Parallel operand sequences of a pairing product had different lengths. -/
  | lengthMismatch
deriving DecidableEq, Repr

/-- Outcome of a gadget computation: the ordered events it appended to the
constraint system together with a returned value, a recoverable error, or a
host-process abort (Rust panic, e.g. from `assert_eq!`). -/
inductive M (α : Type) where
  | ok : List Event → α → M α
  | err : List Event → SynthesisError → M α
  | panicked : List Event → String → M α
deriving DecidableEq, Repr

/-- Prepend already-appended events onto a computation's outcome. -/
def M.appendEvents (evs : List Event) : M α → M α
  | .ok evs' a => .ok (evs ++ evs') a
  | .err evs' e => .err (evs ++ evs') e
  | .panicked evs' s => .panicked (evs ++ evs') s

/-- Sequencing of gadget computations: events accumulate in order, a recoverable
error or a panic short-circuits. -/
def M.bind : M α → (α → M β) → M β
  | .ok evs a, f => M.appendEvents evs (f a)
  | .err evs e, _ => .err evs e
  | .panicked evs s, _ => .panicked evs s

instance : Monad M where
  pure a := .ok [] a
  bind := M.bind

/-- Append one event to the constraint system. -/
def emit (e : Event) : M Unit := .ok [e] ()

/-- Return a recoverable `SynthesisError` (Rust `return Err(..)`). -/
def M.raise (e : SynthesisError) : M α := .err [] e

/-- Abort the host process (Rust panic / failed `assert_eq!`). -/
def M.panicAbort (msg : String) : M α := .panicked [] msg

/-- Rust semantics of dropping a `Result` value on the statement level: the
sub-computation's constraint-system effects are kept, but a recoverable error
is silently discarded and execution continues. -/
def dropResult (m : M Unit) : M Unit :=
  match m with
  | .ok evs _ => .ok evs ()
  | .err evs _ => .ok evs ()
  | .panicked evs s => .panicked evs s

/-- Whether a computation completed successfully. -/
def M.isOk : M α → Bool
  | .ok _ _ => true
  | _ => false

/-- Modelled from the spec: the external collaborator's conditional
select-between-two on G2 points (`Boolean::select`, r1cs_std, not under src/). -/
def Boolean.select (bit : Bool) (ifTrue ifFalse : G2) : M G2 :=
  .ok [.select bit ifTrue ifFalse] (if bit then ifTrue else ifFalse)

/-- Modelled from the spec: the pairing collaborator's G1 preparation
(`P::prepare_g1`, r1cs_std, not under src/); value-preserving. -/
def P.prepare_g1 (p : G1) : M PreparedG1 := .ok [.prepG1 p] p

/-- Modelled from the spec: the pairing collaborator's G2 preparation
(`P::prepare_g2`, r1cs_std, not under src/); value-preserving. -/
def P.prepare_g2 (p : G2) : M PreparedG2 := .ok [.prepG2 p] p

/-- Modelled from the spec: constant allocation of a G2 point
(`new_constant`, r1cs_std, not under src/). -/
def new_constant_g2 (p : G2) : M G2 := .ok [.allocG2Constant p] p

/-- Modelled from the spec: G2 negation (`negate`, r1cs_std, not under src/). -/
def G2.negate (p : G2) : M G2 := .ok [.negateG2 p] (-p)

/-- Modelled from the spec: the pairing collaborator's multi-pairing product
(`P::product_of_pairings`, r1cs_std, not under src/).  Per the spec (section
4.1) and the source doc comment of `enforce_bls_equation`, it fails with an
input-shape error if the two operand lists have different lengths. -/
def P.product_of_pairings (g1 : List PreparedG1) (g2 : List PreparedG2) : M GTVar :=
  if g1.length = g2.length then
    .ok [.pairingProduct g1 g2] (g1.zip g2)
  else
    M.raise .lengthMismatch

/-- Modelled from the spec: enforced equality of target-group elements
(`GTVar::enforce_equal`, r1cs_std, not under src/). -/
def GTVar.enforce_equal (lhs rhs : GTVar) : M Unit := .ok [.enforceEqualGT lhs rhs] ()

/-- Modelled from the spec: the bitmap-occupancy constraint (trait
`Bitmap::enforce_maximum_occurrences_in_bitmap` of the bls-gadgets crate, not
under src/): enforces that `counted` occurs at most `max` times in `bitmap`. -/
def Bitmap.enforce_maximum_occurrences_in_bitmap
    (bitmap : List Bool) (max : Fr) (counted : Bool) : M Unit :=
  emit (.enforceMaxOccurrences bitmap max counted)

/-- The accumulation loop of `enforce_aggregated_pubkeys`
(`for (pk, bit) in pub_keys.iter().zip(signed_bitmap) { ... }`). -/
def BlsVerifyGadget.aggregateLoop : List (G2 × Bool) → G2 → M G2
  | [], aggregated_pk => pure aggregated_pk
  | (pk, bit) :: rest, aggregated_pk => do
      -- If bit = 1, add pk
      let adder ← Boolean.select bit pk G2.zero
      BlsVerifyGadget.aggregateLoop rest (aggregated_pk + adder)

/-- bls.rs `enforce_aggregated_pubkeys`: checks that an aggregate pubkey is the
sum of the pub keys which had a 1 in the bitmap.  `assert_eq!` panics (host
abort) when the bitmap and pubkey lists differ in length. -/
def BlsVerifyGadget.enforce_aggregated_pubkeys
    (pub_keys : List G2) (signed_bitmap : List Bool) : M G2 :=
  -- Bitmap and Pubkeys must be of the same length
  if signed_bitmap.length ≠ pub_keys.length then
    M.panicAbort "assertion failed: signed_bitmap.len() == pub_keys.len()"
  else
    BlsVerifyGadget.aggregateLoop (pub_keys.zip signed_bitmap) G2.zero

/-- bls.rs `enforce_aggregated_all_pubkeys`: the unconditional sum of all keys. -/
def BlsVerifyGadget.enforce_aggregated_all_pubkeys (pub_keys : List G2) : M G2 :=
  pure (pub_keys.foldl (fun aggregated_pk pk => aggregated_pk + pk) G2.zero)

/-- bls.rs `enforce_bitmap`: enforces that the bitmap has at most
`maximum_non_signers` zero bits, then aggregates the bitmap-selected pubkeys,
passing the message hash through unchanged. -/
def BlsVerifyGadget.enforce_bitmap
    (pub_keys : List G2) (signed_bitmap : List Bool) (message_hash : G1)
    (maximum_non_signers : Fr) : M (G1 × G2) := do
  Bitmap.enforce_maximum_occurrences_in_bitmap signed_bitmap maximum_non_signers false
  let aggregated_pk ← BlsVerifyGadget.enforce_aggregated_pubkeys pub_keys signed_bitmap
  pure (message_hash, aggregated_pk)

/-- bls.rs `prepare_signature_neg_generator`: prepares the G1 signature,
allocates the fixed G2 generator as a circuit constant, negates it and prepares
the negation. -/
def BlsVerifyGadget.prepare_signature_neg_generator
    (signature : G1) : M (PreparedG1 × PreparedG2) := do
  -- Ensure the signature is prepared
  let prepared_signature ← P.prepare_g1 signature
  -- Allocate the generator on G2
  let g2_gen ← new_constant_g2 g2_generator
  -- and negate it for the purpose of verification
  let g2_neg_generator ← G2.negate g2_gen
  let prepared_g2_neg_generator ← P.prepare_g2 g2_neg_generator
  pure (prepared_signature, prepared_g2_neg_generator)

/-- bls.rs `enforce_bls_equation`: multiplies the pairings of parallel operand
lists together and enforces that the product equals `1_GT`. -/
def BlsVerifyGadget.enforce_bls_equation
    (g1 : List PreparedG1) (g2 : List PreparedG2) : M Unit := do
  let bls_equation ← P.product_of_pairings g1 g2
  GTVar.enforce_equal bls_equation GTVar.one

/-- bls.rs `verify`: obtains `(message_hash, aggregated_pk)` from
`enforce_bitmap` and enforces `e(sig, -g2) * e(H(m), apk) == 1_GT` as one
combined pairing product. -/
def BlsVerifyGadget.verify
    (pub_keys : List G2) (signed_bitmap : List Bool) (message_hash : G1)
    (signature : G1) (maximum_non_signers : Fr) : M Unit := do
  -- Get the message hash and the aggregated public key based on the bitmap
  -- and allowed number of non-signers
  let (message_hash, aggregated_pk) ←
    BlsVerifyGadget.enforce_bitmap pub_keys signed_bitmap message_hash maximum_non_signers
  let prepared_aggregated_pk ← P.prepare_g2 aggregated_pk
  let prepared_message_hash ← P.prepare_g1 message_hash
  -- Prepare the signature and get the generator
  let (prepared_signature, prepared_g2_neg_generator) ←
    BlsVerifyGadget.prepare_signature_neg_generator signature
  -- e(sig, g_2^-1) * e(H(m), apk) == 1_GT
  BlsVerifyGadget.enforce_bls_equation
    [prepared_signature, prepared_message_hash]
    [prepared_g2_neg_generator, prepared_aggregated_pk]

/-- The `map(prepare_g1).collect::<Result<Vec<_>, _>>()` loop of `batch_verify`. -/
def BlsVerifyGadget.prepareAllG1 : List G1 → M (List PreparedG1)
  | [] => pure []
  | message_hash :: rest => do
      let p ← P.prepare_g1 message_hash
      let ps ← BlsVerifyGadget.prepareAllG1 rest
      pure (p :: ps)

/-- The `map(prepare_g2).collect::<Result<Vec<_>, _>>()` loop of `batch_verify`. -/
def BlsVerifyGadget.prepareAllG2 : List G2 → M (List PreparedG2)
  | [] => pure []
  | pubkey :: rest => do
      let p ← P.prepare_g2 pubkey
      let ps ← BlsVerifyGadget.prepareAllG2 rest
      pure (p :: ps)

/-- bls.rs `batch_verify_prepared`: prepends the prepared signature and negated
generator to the prepared operand lists and enforces the combined equation
`e(sig, g_2^-1) * e(H(m_0), pk_0) * ... * e(H(m_n), pk_n) == 1_GT`. -/
def BlsVerifyGadget.batch_verify_prepared
    (prepared_aggregated_pub_keys : List PreparedG2)
    (prepared_message_hashes : List PreparedG1)
    (aggregated_signature : G1) : M Unit := do
  -- Prepare the signature and get the generator
  let (prepared_signature, prepared_g2_neg_generator) ←
    BlsVerifyGadget.prepare_signature_neg_generator aggregated_signature
  -- Create the vectors which we'll batch verify
  let prepared_g1s := prepared_signature :: prepared_message_hashes
  let prepared_g2s := prepared_g2_neg_generator :: prepared_aggregated_pub_keys
  -- Enforce the BLS check
  BlsVerifyGadget.enforce_bls_equation prepared_g1s prepared_g2s

/-- bls.rs `batch_verify`: prepares every message hash and aggregated pubkey,
then defers to `batch_verify_prepared`. -/
def BlsVerifyGadget.batch_verify
    (aggregated_pub_keys : List G2) (message_hashes : List G1)
    (aggregated_signature : G1) : M Unit := do
  let prepared_message_hashes ← BlsVerifyGadget.prepareAllG1 message_hashes
  let prepared_aggregated_pub_keys ← BlsVerifyGadget.prepareAllG2 aggregated_pub_keys
  BlsVerifyGadget.batch_verify_prepared
    prepared_aggregated_pub_keys
    prepared_message_hashes
    aggregated_signature

/-- Modelled from the spec: raw epoch metadata (`EpochData`, epoch-snark crate,
not under src/): epoch index, a maximum-non-signers threshold, the new
validator public-key sequence, and entropy bytes for this epoch and its
parent; values may be absent before witness assignment. -/
structure EpochData where
  index : Option Nat
  epoch_entropy : Option (List Nat)
  parent_entropy : Option (List Nat)
  maximum_non_signers : Nat
  public_keys : List (Option G2)
deriving DecidableEq, Repr

/-- single_update.rs `SingleUpdate`: the new epoch block's metadata together
with the bitmap of the validators which signed on the new epoch block. -/
structure SingleUpdate where
  epoch_data : EpochData
  signed_bitmap : List (Option Bool)
deriving DecidableEq, Repr

/-- Modelled from the spec: the bundle produced by the external epoch-data
constrainer (`EpochData::constrain`, epoch-snark crate, not under src/):
constrained index, entropies, threshold, pubkeys, message hash and
bit-serializations, as wires. -/
structure ConstrainedEpochData where
  index : Fr
  epoch_entropy : Fr
  parent_entropy : Fr
  maximum_non_signers : Fr
  pubkeys : List G2
  message_hash : G1
  bits : List Bool
  xof_bits : List Bool
  crh_bits : List Bool
deriving DecidableEq, Repr

/-- single_update.rs `ConstrainedEpoch`: the output of one constrained epoch
transition, consumed by the next transition in the chain. -/
structure ConstrainedEpoch where
  new_pubkeys : List G2
  new_max_non_signers : Fr
  message_hash : G1
  aggregate_pk : G2
  index : Fr
  epoch_entropy : Fr
  parent_entropy : Fr
  bits : List Bool
  xof_bits : List Bool
  crh_bits : List Bool
deriving DecidableEq, Repr

/-- Modelled from the spec: packing of entropy bytes into one field element
(`bytes_to_fr`, epoch-snark crate, not under src/), little-endian base 256. -/
def bytes_to_fr (bytes : List Nat) : Fr :=
  Int.ofNat (bytes.foldr (fun b acc => acc * 256 + b) 0)

/-- Little-endian bit decomposition of a natural number at a fixed width;
used only by the modelled serializations below. -/
def natToBitsLE : Nat → Nat → List Bool
  | _, 0 => []
  | n, w + 1 => (n % 2 == 1) :: natToBitsLE (n / 2) w

/-- Modelled from the spec: the hash of the epoch metadata to a G1 point
(performed by the external epoch-data constrainer, not under src/).  The
concrete hash is out of scope for the spec; any fixed function of the epoch
metadata serves the claims, which only pass the message hash through. -/
def epochMessageHash (index : Nat) (entropy : List Nat) (maximum_non_signers : Nat)
    (pubkeys : List G2) : G1 :=
  Int.ofNat index + 31 * bytes_to_fr entropy + 37 * Int.ofNat maximum_non_signers +
    41 * pubkeys.foldl (fun acc pk => acc + pk) 0

/-- Modelled from the spec: the serialized bit representation of the epoch data
(produced by the external epoch-data constrainer, not under src/). -/
def epochBits (index : Nat) (maximum_non_signers : Nat) : List Bool :=
  natToBitsLE index 16 ++ natToBitsLE maximum_non_signers 32

/-- Modelled from the spec: auxiliary XOF bit commitments for proving the
CRH-to-XOF hash outside the main circuit (not under src/); only produced when
hash constraints are requested. -/
def epochXofBits (index : Nat) : List Bool := natToBitsLE index 8

/-- Modelled from the spec: auxiliary CRH bit commitments (not under src/);
only produced when hash constraints are requested. -/
def epochCrhBits (index : Nat) : List Bool := natToBitsLE (index + 1) 8

/-- Collect a list of optional values, failing on the first absent one. -/
def collectSome : List (Option α) → Option (List α)
  | [] => some []
  | none :: _ => none
  | some a :: rest => (collectSome rest).map (a :: ·)

/-- Modelled from the spec: the external epoch-data constrainer
(`EpochData::constrain`, epoch-snark crate, not under src/).  It derives the
constrained index, entropies, threshold, pubkeys, message hash and serialized
bits from the raw epoch data; a missing raw value yields `AssignmentMissing`. -/
def EpochData.constrain (self : EpochData) (previous_epoch_index : Fr)
    (generate_constraints_for_hash : Bool) : M ConstrainedEpochData :=
  match self.index, self.epoch_entropy, self.parent_entropy, collectSome self.public_keys with
  | some index, some entropy, some parent, some pubkeys => do
      emit (.epochDataConstrain previous_epoch_index generate_constraints_for_hash)
      pure
        { index := Int.ofNat index
          epoch_entropy := bytes_to_fr entropy
          parent_entropy := bytes_to_fr parent
          maximum_non_signers := Int.ofNat self.maximum_non_signers
          pubkeys
          message_hash := epochMessageHash index entropy self.maximum_non_signers pubkeys
          bits := epochBits index self.maximum_non_signers
          xof_bits := if generate_constraints_for_hash then epochXofBits index else []
          crh_bits := if generate_constraints_for_hash then epochCrhBits index else [] }
  | _, _, _, _ => M.raise .assignmentMissing

/-- Modelled from the spec: the raw-boolean-sequence-to-wire constrainer for
the signer bitmap (`constrain_bool`, epoch-snark crate, not under src/):
allocates one boolean witness per entry, `AssignmentMissing` on an absent one. -/
def constrain_bool : List (Option Bool) → M (List Bool)
  | [] => pure []
  | none :: _ => M.raise .assignmentMissing
  | some b :: rest => do
      emit (.witnessBool b)
      let tail ← constrain_bool rest
      pure (b :: tail)

/-- Modelled from the spec: the zero test on a field wire
(`FpUtils::is_eq_zero`, bls-gadgets crate, not under src/). -/
def FrVar.is_eq_zero (x : Fr) : M Bool := .ok [.isEqZero x] (decide (x = 0))

/-- Modelled from the spec: boolean negation on a wire (`Boolean::not`,
r1cs_std, not under src/); adds no constraints. -/
def Boolean.bnot (a : Bool) : Bool := !a

/-- Modelled from the spec: boolean conjunction on wires (`Boolean::and`,
r1cs_std, not under src/). -/
def Boolean.band (a b : Bool) : M Bool := .ok [.booleanAnd a b] (a && b)

/-- The conditional field-equality capability used by `SingleUpdate::constrain`
(the r1cs_std `EqGadget::conditional_enforce_equal` collaborator, not under
src/), kept as a capability parameter per the spec's collaborator abstraction
so that propagation of its failures can be stated. -/
structure EqBackend where
  conditional_enforce_equal : Fr → Fr → Bool → M Unit

/-- Modelled from the spec: the standard conditional-equality collaborator;
it records the conditional constraint and does not fail. -/
def stdEqBackend : EqBackend :=
  ⟨fun x y cond => .ok [.condEnforceEqualFr x y cond] ()⟩

/-- A conditional-equality collaborator that fails with a synthesis error;
used to exhibit how `SingleUpdate::constrain` treats such a failure. -/
def failEqBackend : EqBackend :=
  ⟨fun _ _ _ => M.raise .assignmentMissing⟩

/-- single_update.rs `SingleUpdate::constrain`: checks the validator count by
`assert_eq!` (host abort on mismatch), constrains the raw epoch data,
conditionally enforces entropy continuity (the returned `Result` of that call
is dropped by the source, which the `dropResult` wrapper mirrors), constrains
the signer bitmap, runs the BLS gadget's `enforce_bitmap` against the previous
epoch's pubkeys and threshold, and emits the `ConstrainedEpoch`. -/
def SingleUpdate.constrain (eqb : EqBackend) (self : SingleUpdate)
    (previous_pubkeys : List G2) (previous_epoch_index : Fr)
    (previous_epoch_randomness : Fr) (previous_max_non_signers : Fr)
    (constrain_entropy_bit : Bool) (num_validators : Nat)
    (generate_constraints_for_hash : Bool) : M ConstrainedEpoch :=
  -- the number of validators across all epochs must be consistent
  if num_validators ≠ self.epoch_data.public_keys.length then
    M.panicAbort "assertion failed: num_validators as usize == self.epoch_data.public_keys.len()"
  else do
    -- Get the constrained epoch data
    let epoch_data ← self.epoch_data.constrain previous_epoch_index generate_constraints_for_hash
    let is_zero ← FrVar.is_eq_zero epoch_data.index
    let index_bit := Boolean.bnot is_zero
    -- Enforce equality with previous epoch's entropy if current epoch is not
    -- a dummy block and entropy was present in the first epoch
    let entropy_cond ← Boolean.band index_bit constrain_entropy_bit
    dropResult
      (eqb.conditional_enforce_equal previous_epoch_index epoch_data.parent_entropy entropy_cond)
    -- convert the bitmap to constraints
    let signed_bitmap ← constrain_bool self.signed_bitmap
    -- Verify that the bitmap is consistent with the pubkeys read from the
    -- previous epoch and prepare the message hash and the aggregate pk
    let (message_hash, aggregated_public_key) ←
      BlsVerifyGadget.enforce_bitmap previous_pubkeys signed_bitmap epoch_data.message_hash
        previous_max_non_signers
    pure
      { new_pubkeys := epoch_data.pubkeys
        new_max_non_signers := epoch_data.maximum_non_signers
        message_hash
        aggregate_pk := aggregated_public_key
        index := epoch_data.index
        epoch_entropy := epoch_data.epoch_entropy
        parent_entropy := epoch_data.parent_entropy
        bits := epoch_data.bits
        xof_bits := epoch_data.xof_bits
        crh_bits := epoch_data.crh_bits }

/-- The selection events appended by the aggregation loop of
`enforce_aggregated_pubkeys`, one per (pubkey, bit) pair. -/
def selectEvents (pub_keys : List G2) (signed_bitmap : List Bool) : List Event :=
  (pub_keys.zip signed_bitmap).map fun pb => Event.select pb.2 pb.1 G2.zero

/-- The aggregate public key value: the group sum of the pubkeys whose bitmap
bit is set. -/
def aggregateValue (pub_keys : List G2) (signed_bitmap : List Bool) : G2 :=
  (pub_keys.zip signed_bitmap).foldl
    (fun acc pb => acc + (if pb.2 then pb.1 else G2.zero)) G2.zero

/-- The events appended by a successful `enforce_bitmap` call: the
bitmap-occupancy constraint first, then the aggregation selections. -/
def enforceBitmapEvents (pub_keys : List G2) (signed_bitmap : List Bool)
    (maximum_non_signers : Fr) : List Event :=
  Event.enforceMaxOccurrences signed_bitmap maximum_non_signers false
    :: selectEvents pub_keys signed_bitmap

/-- The events appended by `prepare_signature_neg_generator`. -/
def sigNegGenEvents (signature : G1) : List Event :=
  [.prepG1 signature, .allocG2Constant g2_generator, .negateG2 g2_generator,
   .prepG2 (-g2_generator)]

/-- The events appended by a successful `enforce_bls_equation` call. -/
def blsEquationEvents (g1s : List PreparedG1) (g2s : List PreparedG2) : List Event :=
  [.pairingProduct g1s g2s, .enforceEqualGT (g1s.zip g2s) GTVar.one]

/-- The events appended by `verify` after its `enforce_bitmap` stage. -/
def verifyTailEvents (message_hash signature : G1) (aggregated_pk : G2) : List Event :=
  [.prepG2 aggregated_pk, .prepG1 message_hash] ++ sigNegGenEvents signature ++
    blsEquationEvents [signature, message_hash] [-g2_generator, aggregated_pk]

/-- The field equality demanded by an event, if any: a conditional equality
constraint demands its equality exactly when its condition bit is `true`. -/
def Event.requiresEq : Event → Option (Fr × Fr)
  | .condEnforceEqualFr x y cond => if cond then some (x, y) else none
  | _ => none

/-- All field equalities demanded by a list of constraint events. -/
def requiredFrEqs (evs : List Event) : List (Fr × Fr) :=
  evs.filterMap Event.requiresEq

/-- A fully assigned `SingleUpdate` built from raw values. -/
def mkUpdate (index : Nat) (entropy parent : List Nat) (maximum_non_signers : Nat)
    (pubkeys : List G2) (bitmap : List Bool) : SingleUpdate :=
  ⟨⟨some index, some entropy, some parent, maximum_non_signers, pubkeys.map some⟩,
   bitmap.map some⟩

/-- The events appended by a successful `SingleUpdate::constrain` call before
its `enforce_bitmap` stage. -/
def constrainPrefixEvents (index : Nat) (parent : List Nat) (bitmap : List Bool)
    (previous_epoch_index : Fr) (constrain_entropy_bit hflag : Bool) : List Event :=
  [.epochDataConstrain previous_epoch_index hflag,
   .isEqZero (Int.ofNat index),
   .booleanAnd (!decide ((Int.ofNat index : Fr) = 0)) constrain_entropy_bit,
   .condEnforceEqualFr previous_epoch_index (bytes_to_fr parent)
     ((!decide ((Int.ofNat index : Fr) = 0)) && constrain_entropy_bit)]
  ++ bitmap.map Event.witnessBool

/-- The `ConstrainedEpoch` produced by a successful `SingleUpdate::constrain`
call on a fully assigned update. -/
def expectedConstrainedEpoch (index : Nat) (entropy parent : List Nat)
    (maximum_non_signers : Nat) (pubkeys previous_pubkeys : List G2)
    (bitmap : List Bool) (hflag : Bool) : ConstrainedEpoch :=
  { new_pubkeys := pubkeys
    new_max_non_signers := Int.ofNat maximum_non_signers
    message_hash := epochMessageHash index entropy maximum_non_signers pubkeys
    aggregate_pk := aggregateValue previous_pubkeys bitmap
    index := Int.ofNat index
    epoch_entropy := bytes_to_fr entropy
    parent_entropy := bytes_to_fr parent
    bits := epochBits index maximum_non_signers
    xof_bits := if hflag then epochXofBits index else []
    crh_bits := if hflag then epochCrhBits index else [] }

theorem M.bind_eq (m : M α) (f : α → M β) : m >>= f = M.bind m f := rfl

theorem M.pure_eq (a : α) : (pure a : M α) = .ok [] a := rfl

theorem M.appendEvents_ok (evs evs' : List Event) (a : α) :
    M.appendEvents evs (.ok evs' a) = .ok (evs ++ evs') a := rfl

theorem M.appendEvents_err (evs evs' : List Event) (e : SynthesisError) :
    M.appendEvents evs (.err evs' e : M α) = .err (evs ++ evs') e := rfl

theorem M.appendEvents_panicked (evs evs' : List Event) (s : String) :
    M.appendEvents evs (.panicked evs' s : M α) = .panicked (evs ++ evs') s := rfl

theorem M.ok_bind (evs : List Event) (a : α) (f : α → M β) :
    (M.ok evs a) >>= f = M.appendEvents evs (f a) := rfl

theorem M.err_bind (evs : List Event) (e : SynthesisError) (f : α → M β) :
    (M.err evs e : M α) >>= f = .err evs e := rfl

theorem M.panicked_bind (evs : List Event) (s : String) (f : α → M β) :
    (M.panicked evs s : M α) >>= f = .panicked evs s := rfl

theorem aggregateLoop_eq (l : List (G2 × Bool)) (init : G2) :
    BlsVerifyGadget.aggregateLoop l init =
      .ok (l.map fun pb => Event.select pb.2 pb.1 G2.zero)
        (l.foldl (fun acc pb => acc + (if pb.2 then pb.1 else G2.zero)) init) := by
  induction l generalizing init with
  | nil => rfl
  | cons pb rest ih =>
      obtain ⟨pk, bit⟩ := pb
      simp [BlsVerifyGadget.aggregateLoop, Boolean.select, M.ok_bind, M.appendEvents_ok, ih]

theorem enforce_aggregated_pubkeys_eq (pub_keys : List G2) (signed_bitmap : List Bool)
    (h : signed_bitmap.length = pub_keys.length) :
    BlsVerifyGadget.enforce_aggregated_pubkeys pub_keys signed_bitmap =
      .ok (selectEvents pub_keys signed_bitmap) (aggregateValue pub_keys signed_bitmap) := by
  simp [BlsVerifyGadget.enforce_aggregated_pubkeys, h, aggregateLoop_eq, selectEvents,
    aggregateValue]

theorem enforce_bitmap_eq (pub_keys : List G2) (signed_bitmap : List Bool)
    (message_hash : G1) (maximum_non_signers : Fr)
    (h : signed_bitmap.length = pub_keys.length) :
    BlsVerifyGadget.enforce_bitmap pub_keys signed_bitmap message_hash maximum_non_signers =
      .ok (enforceBitmapEvents pub_keys signed_bitmap maximum_non_signers)
        (message_hash, aggregateValue pub_keys signed_bitmap) := by
  simp [BlsVerifyGadget.enforce_bitmap, Bitmap.enforce_maximum_occurrences_in_bitmap, emit,
    M.ok_bind, M.appendEvents_ok, M.pure_eq, enforce_aggregated_pubkeys_eq _ _ h,
    enforceBitmapEvents, M.bind_eq, M.bind, M.appendEvents, enforceBitmapEvents]

theorem verify_eq (pub_keys : List G2) (signed_bitmap : List Bool) (message_hash : G1)
    (signature : G1) (maximum_non_signers : Fr)
    (h : signed_bitmap.length = pub_keys.length) :
    BlsVerifyGadget.verify pub_keys signed_bitmap message_hash signature maximum_non_signers =
      .ok (enforceBitmapEvents pub_keys signed_bitmap maximum_non_signers ++
        verifyTailEvents message_hash signature (aggregateValue pub_keys signed_bitmap)) () := by
  simp [BlsVerifyGadget.verify, enforce_bitmap_eq _ _ _ _ h, M.ok_bind, M.appendEvents_ok,
    BlsVerifyGadget.prepare_signature_neg_generator, BlsVerifyGadget.enforce_bls_equation,
    P.prepare_g1, P.prepare_g2, new_constant_g2, G2.negate, P.product_of_pairings,
    GTVar.enforce_equal, M.pure_eq, verifyTailEvents, sigNegGenEvents, blsEquationEvents,
    GTVar.one, List.zip]

theorem prepareAllG1_eq (l : List G1) :
    BlsVerifyGadget.prepareAllG1 l = .ok (l.map Event.prepG1) l := by
  induction l with
  | nil => rfl
  | cons mh rest ih =>
      simp [BlsVerifyGadget.prepareAllG1, P.prepare_g1, M.ok_bind, M.appendEvents_ok,
        M.pure_eq, ih]

theorem prepareAllG2_eq (l : List G2) :
    BlsVerifyGadget.prepareAllG2 l = .ok (l.map Event.prepG2) l := by
  induction l with
  | nil => rfl
  | cons pk rest ih =>
      simp [BlsVerifyGadget.prepareAllG2, P.prepare_g2, M.ok_bind, M.appendEvents_ok,
        M.pure_eq, ih]

theorem batch_verify_prepared_eq (pks : List PreparedG2) (mhs : List PreparedG1) (sig : G1)
    (h : mhs.length = pks.length) :
    BlsVerifyGadget.batch_verify_prepared pks mhs sig =
      .ok (sigNegGenEvents sig ++ blsEquationEvents (sig :: mhs) (-g2_generator :: pks)) () := by
  simp [BlsVerifyGadget.batch_verify_prepared, BlsVerifyGadget.prepare_signature_neg_generator,
    BlsVerifyGadget.enforce_bls_equation, P.prepare_g1, P.prepare_g2, new_constant_g2,
    G2.negate, P.product_of_pairings, GTVar.enforce_equal, M.ok_bind, M.appendEvents_ok,
    M.pure_eq, h, sigNegGenEvents, blsEquationEvents, GTVar.one]

theorem batch_verify_eq (pks : List G2) (mhs : List G1) (sig : G1)
    (h : mhs.length = pks.length) :
    BlsVerifyGadget.batch_verify pks mhs sig =
      .ok (mhs.map Event.prepG1 ++ pks.map Event.prepG2 ++ sigNegGenEvents sig ++
        blsEquationEvents (sig :: mhs) (-g2_generator :: pks)) () := by
  simp [BlsVerifyGadget.batch_verify, prepareAllG1_eq, prepareAllG2_eq, M.ok_bind,
    M.appendEvents_ok, batch_verify_prepared_eq _ _ _ h]

theorem batch_verify_mismatch_eq (pks : List G2) (mhs : List G1) (sig : G1)
    (h : mhs.length ≠ pks.length) :
    BlsVerifyGadget.batch_verify pks mhs sig =
      .err (mhs.map Event.prepG1 ++ pks.map Event.prepG2 ++ sigNegGenEvents sig)
        SynthesisError.lengthMismatch := by
  simp [BlsVerifyGadget.batch_verify, prepareAllG1_eq, prepareAllG2_eq, M.ok_bind,
    M.appendEvents_ok, BlsVerifyGadget.batch_verify_prepared,
    BlsVerifyGadget.prepare_signature_neg_generator, BlsVerifyGadget.enforce_bls_equation,
    P.prepare_g1, P.prepare_g2, new_constant_g2, G2.negate, P.product_of_pairings,
    GTVar.enforce_equal, M.pure_eq, h, sigNegGenEvents, M.err_bind, M.appendEvents_err,
    M.raise]

theorem collectSome_map_some (l : List α) : collectSome (l.map some) = some l := by
  induction l with
  | nil => rfl
  | cons a rest ih => simp [collectSome, ih]

theorem constrain_bool_map_some (l : List Bool) :
    constrain_bool (l.map some) = .ok (l.map Event.witnessBool) l := by
  induction l with
  | nil => rfl
  | cons b rest ih =>
      simp [constrain_bool, emit, M.ok_bind, M.appendEvents_ok, M.pure_eq, ih]

theorem epochData_constrain_eq (index : Nat) (entropy parent : List Nat)
    (maximum_non_signers : Nat) (pubkeys : List G2) (previous_epoch_index : Fr)
    (hflag : Bool) :
    EpochData.constrain
        ⟨some index, some entropy, some parent, maximum_non_signers, pubkeys.map some⟩
        previous_epoch_index hflag =
      .ok [.epochDataConstrain previous_epoch_index hflag]
        ⟨Int.ofNat index, bytes_to_fr entropy, bytes_to_fr parent,
         Int.ofNat maximum_non_signers, pubkeys,
         epochMessageHash index entropy maximum_non_signers pubkeys,
         epochBits index maximum_non_signers,
         if hflag then epochXofBits index else [],
         if hflag then epochCrhBits index else []⟩ := by
  simp [EpochData.constrain, collectSome_map_some, emit, M.ok_bind, M.appendEvents_ok,
    M.pure_eq]

theorem constrain_eq (index : Nat) (entropy parent : List Nat) (maximum_non_signers : Nat)
    (pubkeys : List G2) (bitmap : List Bool) (previous_pubkeys : List G2)
    (previous_epoch_index previous_epoch_randomness previous_max_non_signers : Fr)
    (constrain_entropy_bit : Bool) (num_validators : Nat) (hflag : Bool)
    (hnv : num_validators = pubkeys.length)
    (h : bitmap.length = previous_pubkeys.length) :
    SingleUpdate.constrain stdEqBackend
        (mkUpdate index entropy parent maximum_non_signers pubkeys bitmap)
        previous_pubkeys previous_epoch_index previous_epoch_randomness
        previous_max_non_signers constrain_entropy_bit num_validators hflag =
      .ok (constrainPrefixEvents index parent bitmap previous_epoch_index
            constrain_entropy_bit hflag ++
          enforceBitmapEvents previous_pubkeys bitmap previous_max_non_signers)
        (expectedConstrainedEpoch index entropy parent maximum_non_signers pubkeys
          previous_pubkeys bitmap hflag) := by
  simp [SingleUpdate.constrain, mkUpdate, hnv, epochData_constrain_eq, M.ok_bind,
    M.appendEvents_ok, FrVar.is_eq_zero, Boolean.bnot, Boolean.band, stdEqBackend,
    dropResult, constrain_bool_map_some, enforce_bitmap_eq _ _ _ _ h, M.pure_eq,
    constrainPrefixEvents, expectedConstrainedEpoch]

/-- C1: the claim says both length-mismatch cases return a recoverable
input-shape error.  The source instead executes `assert_eq!`, which aborts the
host process; this theorem evaluates both operations at mismatched inputs and
shows the outcome is a panic (host abort), not a recoverable `err`.  The
specification itself calls the aborting behaviour a defect to correct, so the
claim states the intent and the code is the bug. -/
theorem c1_length_mismatch_panics :
    BlsVerifyGadget.enforce_aggregated_pubkeys [7] [] =
      .panicked [] "assertion failed: signed_bitmap.len() == pub_keys.len()" ∧
    SingleUpdate.constrain stdEqBackend (mkUpdate 0 [] [] 0 [] []) [] 0 0 0 false 1 false =
      .panicked []
        "assertion failed: num_validators as usize == self.epoch_data.public_keys.len()" :=
  ⟨rfl, rfl⟩

/-- C2: every successful `verify` call first obtains `(message_hash,
aggregate_pk)` from `enforce_bitmap`, then appends exactly the preparation of
the aggregate key and message hash, the preparation of the signature, the
allocation of the fixed G2 generator as a circuit constant and its negation,
and one combined pairing product `e(sig, -g2) * e(H(m), apk)` enforced equal
to the target-group identity `1_GT`. -/
theorem c2_verify_single_pairing_equation (pub_keys : List G2) (signed_bitmap : List Bool)
    (message_hash signature : G1) (maximum_non_signers : Fr)
    (h : signed_bitmap.length = pub_keys.length) :
    BlsVerifyGadget.enforce_bitmap pub_keys signed_bitmap message_hash maximum_non_signers =
      .ok (enforceBitmapEvents pub_keys signed_bitmap maximum_non_signers)
        (message_hash, aggregateValue pub_keys signed_bitmap) ∧
    BlsVerifyGadget.verify pub_keys signed_bitmap message_hash signature maximum_non_signers =
      .ok (enforceBitmapEvents pub_keys signed_bitmap maximum_non_signers ++
        verifyTailEvents message_hash signature (aggregateValue pub_keys signed_bitmap)) () :=
  ⟨enforce_bitmap_eq _ _ _ _ h, verify_eq _ _ _ _ _ h⟩

theorem c2_verify_single_pairing_equation_witness :
    ([true] : List Bool).length = ([(4 : G2)] : List G2).length ∧
    (BlsVerifyGadget.enforce_bitmap [(4 : G2)] [true] 9 1 =
      .ok (enforceBitmapEvents [(4 : G2)] [true] 1)
        (9, aggregateValue [(4 : G2)] [true]) ∧
    BlsVerifyGadget.verify [(4 : G2)] [true] 9 5 1 =
      .ok (enforceBitmapEvents [(4 : G2)] [true] 1 ++
        verifyTailEvents 9 5 (aggregateValue [(4 : G2)] [true])) ()) :=
  ⟨rfl, c2_verify_single_pairing_equation [4] [true] 9 5 1 rfl⟩

/-- C5: every successful `enforce_bitmap` call appends the bitmap-occupancy
constraint (at most `maximum_non_signers` `false` bits) first, then exactly
the events of `enforce_aggregated_pubkeys`, and returns the input message hash
unchanged together with the aggregate key computed by that sub-call. -/
theorem c5_enforce_bitmap_occupancy_then_aggregation (pub_keys : List G2)
    (signed_bitmap : List Bool) (message_hash : G1) (maximum_non_signers : Fr)
    (h : signed_bitmap.length = pub_keys.length) :
    BlsVerifyGadget.enforce_bitmap pub_keys signed_bitmap message_hash maximum_non_signers =
      .ok (Event.enforceMaxOccurrences signed_bitmap maximum_non_signers false ::
          selectEvents pub_keys signed_bitmap)
        (message_hash, aggregateValue pub_keys signed_bitmap) ∧
    BlsVerifyGadget.enforce_aggregated_pubkeys pub_keys signed_bitmap =
      .ok (selectEvents pub_keys signed_bitmap) (aggregateValue pub_keys signed_bitmap) :=
  ⟨enforce_bitmap_eq _ _ _ _ h, enforce_aggregated_pubkeys_eq _ _ h⟩

theorem c5_enforce_bitmap_occupancy_then_aggregation_witness :
    ([true, false] : List Bool).length = ([(4 : G2), 6] : List G2).length ∧
    (BlsVerifyGadget.enforce_bitmap [(4 : G2), 6] [true, false] 9 1 =
      .ok (Event.enforceMaxOccurrences [true, false] 1 false ::
          selectEvents [(4 : G2), 6] [true, false])
        (9, aggregateValue [(4 : G2), 6] [true, false]) ∧
    BlsVerifyGadget.enforce_aggregated_pubkeys [(4 : G2), 6] [true, false] =
      .ok (selectEvents [(4 : G2), 6] [true, false])
        (aggregateValue [(4 : G2), 6] [true, false])) :=
  ⟨rfl, c5_enforce_bitmap_occupancy_then_aggregation [4, 6] [true, false] 9 1 rfl⟩

theorem foldl_zip_replicate_true (pub_keys : List G2) (init : G2) :
    (pub_keys.zip (List.replicate pub_keys.length true)).foldl
        (fun acc pb => acc + (if pb.2 then pb.1 else G2.zero)) init =
      pub_keys.foldl (fun acc pk => acc + pk) init := by
  induction pub_keys generalizing init with
  | nil => rfl
  | cons pk rest ih => simp [List.replicate_succ, ih]

/-- C6: aggregating under an all-`true` bitmap of matching length yields the
same aggregate public key value as the unconditional sum of all keys. -/
theorem c6_all_true_bitmap_matches_all_pubkeys (pub_keys : List G2) :
    BlsVerifyGadget.enforce_aggregated_pubkeys pub_keys
        (List.replicate pub_keys.length true) =
      .ok (selectEvents pub_keys (List.replicate pub_keys.length true))
        (pub_keys.foldl (fun acc pk => acc + pk) G2.zero) ∧
    BlsVerifyGadget.enforce_aggregated_all_pubkeys pub_keys =
      .ok [] (pub_keys.foldl (fun acc pk => acc + pk) G2.zero) := by
  constructor
  · rw [enforce_aggregated_pubkeys_eq _ _ (List.length_replicate _ _)]
    simp [aggregateValue, foldl_zip_replicate_true]
  · rfl

/-- C10: on empty inputs, both aggregation operations succeed without
appending any constraint and return the G2 group identity. -/
theorem c10_empty_inputs_yield_identity :
    BlsVerifyGadget.enforce_aggregated_pubkeys [] [] = .ok [] G2.zero ∧
    BlsVerifyGadget.enforce_aggregated_all_pubkeys [] = .ok [] G2.zero :=
  ⟨rfl, rfl⟩

/-- C7 counterexample: at the concrete triple (aggregate key 2, message hash 3,
signature 5), `batch_verify` over the singleton sequences does not produce the
same constraints bit-for-bit as `verify` over that key with the all-`true`
singleton bitmap: `verify` additionally appends the bitmap-occupancy and
aggregation-selection constraints and prepares its operands in a different
order, so the two outcomes differ. -/
theorem c7_batch_singleton_not_bit_for_bit :
    BlsVerifyGadget.batch_verify [2] [3] 5 ≠ BlsVerifyGadget.verify [2] [true] 3 5 0 := by
  decide

/-- C7 amended: `batch_verify` over singleton sequences enforces exactly the
same final combined pairing equation (`e(sig, -g2) * e(H(m), apk) = 1_GT`,
recorded by the same trailing `pairingProduct` and `enforceEqualGT` events) as
`verify` on the same triple, but the constraints preceding that equation
differ between the two operations. -/
theorem c7_batch_singleton_same_equation (aggregate_pk : G2) (message_hash signature : G1)
    (maximum_non_signers : Fr) :
    ∃ evs₁ evs₂ : List Event,
      BlsVerifyGadget.batch_verify [aggregate_pk] [message_hash] signature =
        .ok (evs₁ ++
          blsEquationEvents [signature, message_hash] [-g2_generator, aggregate_pk]) () ∧
      BlsVerifyGadget.verify [aggregate_pk] [true] message_hash signature
          maximum_non_signers =
        .ok (evs₂ ++
          blsEquationEvents [signature, message_hash] [-g2_generator, aggregate_pk]) () ∧
      evs₁ ≠ evs₂ := by
  refine ⟨[.prepG1 message_hash, .prepG2 aggregate_pk] ++ sigNegGenEvents signature,
    enforceBitmapEvents [aggregate_pk] [true] maximum_non_signers ++
      ([.prepG2 aggregate_pk, .prepG1 message_hash] ++ sigNegGenEvents signature),
    ?_, ?_, ?_⟩
  · have hb := batch_verify_eq [aggregate_pk] [message_hash] signature rfl
    simpa using hb
  · have hv := verify_eq [aggregate_pk] [true] message_hash signature maximum_non_signers rfl
    have hagg : aggregateValue [aggregate_pk] [true] = aggregate_pk := by
      simp [aggregateValue, G2.zero]
    rw [hv, hagg]
    simp [verifyTailEvents]
  · simp [enforceBitmapEvents, sigNegGenEvents]

/-- C8 counterexample: at the concrete mismatched input (two pubkeys, one
message hash), `batch_verify` does return an error, but only after the
constraint system has already received the preparation events for every
element of both mismatched sequences and the negated-generator constant; the
claim's "error before any constraint referencing the mismatched sequences is
added" is therefore false: the trace at the error is non-empty and contains
`prepG1 7`, `prepG2 2` and `prepG2 4`, which reference exactly the mismatched
sequences. -/
theorem c8_mismatch_error_not_before_references :
    BlsVerifyGadget.batch_verify [2, 4] [7] 5 =
      .err [.prepG1 7, .prepG2 2, .prepG2 4, .prepG1 5, .allocG2Constant 1, .negateG2 1,
        .prepG2 (-1)] SynthesisError.lengthMismatch ∧
    Event.prepG1 7 ∈ ([.prepG1 7, .prepG2 2, .prepG2 4, .prepG1 5, .allocG2Constant 1,
      .negateG2 1, .prepG2 (-1)] : List Event) ∧
    Event.prepG2 2 ∈ ([.prepG1 7, .prepG2 2, .prepG2 4, .prepG1 5, .allocG2Constant 1,
      .negateG2 1, .prepG2 (-1)] : List Event) := by
  refine ⟨by decide, by decide, by decide⟩

/-- C8 amended: on mismatched sequence lengths, `batch_verify` returns a
recoverable synthesis error, but only from the pairing-product length check
after the per-element preparations of both sequences and the signature /
negated-generator preparation have been appended to the constraint system; no
length check happens at entry. -/
theorem c8_mismatch_error_after_preparations (aggregated_pub_keys : List G2)
    (message_hashes : List G1) (aggregated_signature : G1)
    (h : message_hashes.length ≠ aggregated_pub_keys.length) :
    BlsVerifyGadget.batch_verify aggregated_pub_keys message_hashes aggregated_signature =
      .err (message_hashes.map Event.prepG1 ++ aggregated_pub_keys.map Event.prepG2 ++
        sigNegGenEvents aggregated_signature) SynthesisError.lengthMismatch :=
  batch_verify_mismatch_eq _ _ _ h

theorem c8_mismatch_error_after_preparations_witness :
    ([(7 : G1)] : List G1).length ≠ ([(2 : G2), 4] : List G2).length ∧
    BlsVerifyGadget.batch_verify [(2 : G2), 4] [(7 : G1)] 5 =
      .err (([(7 : G1)] : List G1).map Event.prepG1 ++
        ([(2 : G2), 4] : List G2).map Event.prepG2 ++ sigNegGenEvents 5)
        SynthesisError.lengthMismatch :=
  ⟨by decide, c8_mismatch_error_after_preparations [2, 4] [7] 5 (by decide)⟩

/-- C3: every successful `SingleUpdate::constrain` call runs the BLS gadget's
`enforce_bitmap` against the previous epoch's public keys and previous
threshold together with the new epoch's message hash (its events form the tail
of the constrain trace and its outputs are the returned message hash and
aggregate key), and the returned `ConstrainedEpoch` carries the new epoch's
public keys and threshold plus the message hash, aggregate public key, index,
this epoch's entropy, parent entropy and the auxiliary bit sequences. -/
theorem c3_constrain_composes_enforce_bitmap (index : Nat) (entropy parent : List Nat)
    (maximum_non_signers : Nat) (pubkeys : List G2) (bitmap : List Bool)
    (previous_pubkeys : List G2)
    (previous_epoch_index previous_epoch_randomness previous_max_non_signers : Fr)
    (constrain_entropy_bit : Bool) (num_validators : Nat) (hflag : Bool)
    (hnv : num_validators = pubkeys.length)
    (h : bitmap.length = previous_pubkeys.length) :
    BlsVerifyGadget.enforce_bitmap previous_pubkeys bitmap
        (epochMessageHash index entropy maximum_non_signers pubkeys)
        previous_max_non_signers =
      .ok (enforceBitmapEvents previous_pubkeys bitmap previous_max_non_signers)
        (epochMessageHash index entropy maximum_non_signers pubkeys,
         aggregateValue previous_pubkeys bitmap) ∧
    SingleUpdate.constrain stdEqBackend
        (mkUpdate index entropy parent maximum_non_signers pubkeys bitmap)
        previous_pubkeys previous_epoch_index previous_epoch_randomness
        previous_max_non_signers constrain_entropy_bit num_validators hflag =
      .ok (constrainPrefixEvents index parent bitmap previous_epoch_index
            constrain_entropy_bit hflag ++
          enforceBitmapEvents previous_pubkeys bitmap previous_max_non_signers)
        (expectedConstrainedEpoch index entropy parent maximum_non_signers pubkeys
          previous_pubkeys bitmap hflag) ∧
    expectedConstrainedEpoch index entropy parent maximum_non_signers pubkeys
        previous_pubkeys bitmap hflag =
      ⟨pubkeys, Int.ofNat maximum_non_signers,
       epochMessageHash index entropy maximum_non_signers pubkeys,
       aggregateValue previous_pubkeys bitmap, Int.ofNat index, bytes_to_fr entropy,
       bytes_to_fr parent, epochBits index maximum_non_signers,
       if hflag then epochXofBits index else [],
       if hflag then epochCrhBits index else []⟩ :=
  ⟨enforce_bitmap_eq _ _ _ _ h,
   constrain_eq index entropy parent maximum_non_signers pubkeys bitmap previous_pubkeys
     previous_epoch_index previous_epoch_randomness previous_max_non_signers
     constrain_entropy_bit num_validators hflag hnv h,
   rfl⟩

theorem c3_constrain_composes_enforce_bitmap_witness :
    (1 : Nat) = ([(9 : G2)] : List G2).length ∧
    ([true] : List Bool).length = ([(4 : G2)] : List G2).length ∧
    (BlsVerifyGadget.enforce_bitmap [(4 : G2)] [true] (epochMessageHash 2 [5] 1 [9]) 1 =
      .ok (enforceBitmapEvents [(4 : G2)] [true] 1)
        (epochMessageHash 2 [5] 1 [9], aggregateValue [(4 : G2)] [true]) ∧
    SingleUpdate.constrain stdEqBackend (mkUpdate 2 [5] [6] 1 [9] [true]) [4] 3 2 1 true 1
        false =
      .ok (constrainPrefixEvents 2 [6] [true] 3 true false ++
          enforceBitmapEvents [(4 : G2)] [true] 1)
        (expectedConstrainedEpoch 2 [5] [6] 1 [9] [4] [true] false) ∧
    expectedConstrainedEpoch 2 [5] [6] 1 [9] [4] [true] false =
      ⟨[9], Int.ofNat 1, epochMessageHash 2 [5] 1 [9], aggregateValue [(4 : G2)] [true],
       Int.ofNat 2, bytes_to_fr [5], bytes_to_fr [6], epochBits 2 1,
       if false then epochXofBits 2 else [], if false then epochCrhBits 2 else []⟩) :=
  ⟨by decide, by decide,
   c3_constrain_composes_enforce_bitmap 2 [5] [6] 1 [9] [true] [4] 3 2 1 true 1 false
     (by decide) (by decide)⟩

theorem requiredFrEqs_witnessBool (l : List Bool) :
    List.filterMap Event.requiresEq (l.map Event.witnessBool) = [] := by
  induction l with
  | nil => rfl
  | cons b rest ih => simp [Event.requiresEq, ih]

theorem requiredFrEqs_selectEvents (pub_keys : List G2) (signed_bitmap : List Bool) :
    List.filterMap Event.requiresEq (selectEvents pub_keys signed_bitmap) = [] := by
  unfold selectEvents
  induction pub_keys.zip signed_bitmap with
  | nil => rfl
  | cons pb rest ih => simp [Event.requiresEq, ih]

/-- C4: on every successful `SingleUpdate::constrain` call, the set of field
equalities demanded by the appended constraints is exactly the single equality
`previous_epoch_index = parent_entropy` when the new epoch's index is nonzero
and the entropy flag is set, and is empty otherwise: entropy continuity is
skipped for the designated first (index-zero) epoch or when the caller
disabled the check. -/
theorem c4_entropy_continuity_condition (index : Nat) (entropy parent : List Nat)
    (maximum_non_signers : Nat) (pubkeys : List G2) (bitmap : List Bool)
    (previous_pubkeys : List G2)
    (previous_epoch_index previous_epoch_randomness previous_max_non_signers : Fr)
    (constrain_entropy_bit : Bool) (num_validators : Nat) (hflag : Bool)
    (hnv : num_validators = pubkeys.length)
    (h : bitmap.length = previous_pubkeys.length) :
    ∃ evs ce,
      SingleUpdate.constrain stdEqBackend
          (mkUpdate index entropy parent maximum_non_signers pubkeys bitmap)
          previous_pubkeys previous_epoch_index previous_epoch_randomness
          previous_max_non_signers constrain_entropy_bit num_validators hflag =
        .ok evs ce ∧
      requiredFrEqs evs =
        (if index ≠ 0 ∧ constrain_entropy_bit = true
         then [(previous_epoch_index, bytes_to_fr parent)] else []) := by
  refine ⟨_, _,
    constrain_eq index entropy parent maximum_non_signers pubkeys bitmap previous_pubkeys
      previous_epoch_index previous_epoch_randomness previous_max_non_signers
      constrain_entropy_bit num_validators hflag hnv h, ?_⟩
  simp only [requiredFrEqs, constrainPrefixEvents, enforceBitmapEvents,
    List.filterMap_append, List.filterMap_cons, Event.requiresEq,
    requiredFrEqs_witnessBool, requiredFrEqs_selectEvents, List.append_nil]
  rcases eq_or_ne index 0 with h0 | h0
  · subst h0
    cases constrain_entropy_bit <;> simp [Int.ofNat_eq_zero]
  · cases constrain_entropy_bit <;> simp [Int.ofNat_eq_zero, h0]

theorem c4_entropy_continuity_condition_witness :
    (1 : Nat) = ([(9 : G2)] : List G2).length ∧
    ([true] : List Bool).length = ([(4 : G2)] : List G2).length ∧
    (∃ evs ce,
      SingleUpdate.constrain stdEqBackend (mkUpdate 2 [5] [6] 1 [9] [true]) [4] 3 2 1 false 1
          false =
        .ok evs ce ∧
      requiredFrEqs evs =
        (if (2 : Nat) ≠ 0 ∧ false = true then [((3 : Fr), bytes_to_fr [6])] else [])) :=
  ⟨by decide, by decide,
   c4_entropy_continuity_condition 2 [5] [6] 1 [9] [true] [4] 3 2 1 false 1 false
     (by decide) (by decide)⟩

/-- C9: the source drops the `Result` of the conditional entropy-continuity
equality enforcement (the call lacks `?` at single_update.rs line 106), so a
synthesis error arising there is silently discarded: with a
conditional-equality collaborator that fails with `AssignmentMissing`,
`SingleUpdate::constrain` still completes successfully instead of returning
the error, contradicting the claim's propagation requirement. -/
theorem c9_conditional_enforce_error_swallowed :
    EqBackend.conditional_enforce_equal failEqBackend 3 (bytes_to_fr [6]) true =
      M.err [] SynthesisError.assignmentMissing ∧
    M.isOk (SingleUpdate.constrain failEqBackend (mkUpdate 1 [5] [6] 0 [9] [true])
      [4] 3 2 1 true 1 false) = true :=
  ⟨rfl, by decide⟩
